import Mathlib

/-!
Shallow embedding of the route-composition and geodata-caching layer of the
Walking-AI-Assistant repository (src/location_service.py, src/assistant_service.py,
src/models.py), together with theorems settling the frozen claims about it.

Python strings are modelled as `List Char`, Python numbers as `ℚ` (the numeric
decimal renderings that appear inside cache keys are taken as given strings),
Python dicts as association lists whose mapping-equality is lookup
extensionality, and fallible operations as `Option`/`Except`.
-/

namespace WalkingAssistant

/-- Python strings are modelled as lists of characters. -/
abbrev Str := List Char

/-- A scalar tag/property value: OSM tag values are strings, the injected
`osm_id` field is an integer. -/
inductive TVal : Type where
  | s (v : Str)
  | n (v : ℤ)
deriving DecidableEq, Repr

/-- A Python dict with string keys, modelled as an association list kept in
insertion order with unique keys (as a Python dict's items are). -/
abbrev Props := List (Str × TVal)

/-- First-match association-list lookup: `d[k]` / `k in d` on a Python dict. -/
def lookupA {α : Type} (k : Str) : List (Str × α) → Option α
  | [] => none
  | (k', v) :: rest => if k' = k then some v else lookupA k rest

/-- `d[k] = v` on a Python dict: replace the binding in place if the key is
present (keeping its position in insertion order), else append it. -/
def setA {α : Type} (k : Str) (v : α) : List (Str × α) → List (Str × α)
  | [] => [(k, v)]
  | (k', v') :: rest => if k' = k then (k, v) :: rest else (k', v') :: setA k v rest

/-- GeoJSON geometry as produced by the POI normalizer: a `Point` stores
`[lon, lat]`, a `LineString` stores a list of `[lon, lat]` pairs. -/
inductive Geometry : Type where
  | point (lon lat : ℚ)
  | lineString (coords : List (ℚ × ℚ))
deriving DecidableEq, Repr

/-- A GeoJSON feature: geometry plus a properties dict. -/
structure Feature : Type where
  geometry : Geometry
  props : Props
deriving DecidableEq, Repr

/-- Mapping equality of two property dicts (Python `==` on dicts): every key
of either has the same first-match lookup in both. -/
def dictEqb (a b : Props) : Bool :=
  a.all (fun kv => lookupA kv.1 b = lookupA kv.1 a) &&
    b.all (fun kv => lookupA kv.1 a = lookupA kv.1 b)

/-- Python `==` on two feature dicts: equal geometry and mapping-equal
properties. -/
def featEquivb (f g : Feature) : Bool :=
  dictEqb f.props g.props && f.geometry = g.geometry

/-- Python `poi in selected_pois`: membership up to dict equality. -/
def memF (p : Feature) (l : List Feature) : Bool :=
  l.any (fun q => featEquivb p q)

/-! ## Raw Overpass elements and the POI normalizer
(src/location_service.py, `OpenStreetMapService.get_pois_around_point`) -/

/-- A raw element returned by the map-data provider.  `lat`/`lon` are the
node coordinates (only read for nodes), `geom` is the optional way geometry
(a list of `(lat, lon)` nodes, present iff the element carries a
`geometry` member), `tags` the element's tag dict. -/
structure Element : Type where
  etype : Str
  eid : ℤ
  lat : ℚ
  lon : ℚ
  geom : Option (List (ℚ × ℚ))
  tags : Props
deriving DecidableEq, Repr

/-- Properties attached to a normalized feature: the element's tags with
`osm_id` and then `osm_type` assigned on top (lines 90-92 of
location_service.py). -/
def elementProps (e : Element) : Props :=
  setA "osm_type".toList (.s e.etype) (setA "osm_id".toList (.n e.eid) e.tags)

/-- One iteration of the element-to-feature conversion loop (lines 72-98 of
location_service.py): nodes become `Point` features, ways with an explicit
geometry become `LineString` features (coordinates emitted as
`[lon, lat]`), everything else (relations included) is skipped. -/
def normalizeElement (e : Element) : Option Feature :=
  if e.etype = "node".toList then
    some ⟨.point e.lon e.lat, elementProps e⟩
  else if e.etype = "way".toList then
    match e.geom with
    | some nodes => some ⟨.lineString (nodes.map (fun nd => (nd.2, nd.1))), elementProps e⟩
    | none => none
  else none

/-- The features of the FeatureCollection built from the provider's raw
elements (lines 70-103). -/
def poisFeatures (elements : List Element) : List Feature :=
  elements.filterMap normalizeElement

/-! ## The on-disk GeoCache -/

/-- A stored cache entry: either a decodable document or a corrupt /
unreadable file (on which `json.load` raises). -/
inductive Stored (α : Type) : Type where
  | ok (d : α)
  | corrupt
deriving DecidableEq, Repr

/-- The cache directory: a map from key to stored entry. -/
abbrev Cache (α : Type) := List (Str × Stored α)

/-- The default POI filter list of `get_pois_around_point`
(lines 26-35 of location_service.py). -/
def defaultPoiTypes : List Str :=
  ["leisure=park".toList, "natural=wood".toList, "amenity=cafe".toList,
   "amenity=restaurant".toList, "tourism=attraction".toList,
   "historic=monument".toList, "shop=bakery".toList, "amenity=bench".toList]

/-- Python `'_'.join`. -/
def joinU : List Str → Str
  | [] => []
  | [s] => s
  | s :: rest => s ++ '_' :: joinU (rest)

/-- The POI cache key `f"{lat}_{lon}_{radius}_{'_'.join(poi_types)}"`
(line 38 of location_service.py).  The numeric parameters appear through
their fixed decimal renderings, taken here as the strings `latS`, `lonS`,
`radS`. -/
def poisCacheKey (latS lonS radS : Str) (poiTypes : List Str) : Str :=
  latS ++ '_' :: (lonS ++ '_' :: (radS ++ '_' :: joinU poiTypes))

/-- `OpenStreetMapService.get_pois_around_point` (lines 20-109), with the
external Overpass response abstracted as the raw element list it would
deliver on a cache miss.  A hit on a corrupt entry makes `json.load`
raise (there is no handler), modelled as `Except.error`. -/
def get_pois_around_point (cache : Cache (List Feature)) (latS lonS radS : Str)
    (poi_types : Option (List Str)) (elements : List Element) :
    Except Unit (List Feature × Cache (List Feature)) :=
  let pt := poi_types.getD defaultPoiTypes
  let key := poisCacheKey latS lonS radS pt
  match lookupA key cache with
  | some (.ok d) => .ok (d, cache)
  | some .corrupt => .error ()
  | none =>
      let fc := poisFeatures elements
      .ok (fc, setA key (.ok fc) cache)

/-! ## The Point-to-Point Router
(src/location_service.py, `RoutingService.get_walking_route`) -/

/-- Python `int()` on a rational: truncation toward zero. -/
def pyInt (q : ℚ) : ℤ := q.num.tdiv (q.den : ℤ)

/-- The best route of a successful routing-provider response. -/
structure RouteData : Type where
  geometry : Geometry
  distance : ℚ
  duration : ℚ
deriving DecidableEq, Repr

/-- What the routing provider does for one request: either the GET/JSON
decoding raises (network failure, malformed body), or a JSON document with
a status code and a (possibly empty) route list is delivered. -/
inductive RouterResponse : Type where
  | exn
  | resp (code : Str) (routes : List RouteData)
deriving DecidableEq, Repr

/-- A normalized route segment (the single-feature result of
`get_walking_route`, lines 183-191). -/
structure Seg : Type where
  geometry : Geometry
  distance : ℚ
  duration : ℚ
  duration_minutes : ℤ
deriving DecidableEq, Repr

/-- Build the result feature of `get_walking_route` from the provider's
best route (lines 178-191). -/
def mkSeg (rd : RouteData) : Seg :=
  ⟨rd.geometry, rd.distance, rd.duration, pyInt (rd.duration / 60)⟩

/-- The route cache key `f"{start_lat}_{start_lon}_{end_lat}_{end_lon}"`
(line 154), over the coordinates' decimal renderings. -/
def walkCacheKey (sLatS sLonS eLatS eLonS : Str) : Str :=
  sLatS ++ '_' :: (sLonS ++ '_' :: (eLatS ++ '_' :: eLonS))

/-- The provider's success status string `"Ok"` (line 173). -/
def okStr : Str := "Ok".toList

/-- `RoutingService.get_walking_route` (lines 149-201).  The cache check
(lines 157-159) happens before the `try` block, so a corrupt cached entry
raises to the caller; inside the `try`, any exception (including an empty
`routes` list under an `Ok` code) yields `None`, a non-`Ok` status yields
`None` without caching, and only a successful lookup is cached. -/
def get_walking_route (cache : Cache Seg) (sLatS sLonS eLatS eLonS : Str)
    (response : RouterResponse) : Except Unit (Option Seg) × Cache Seg :=
  let key := walkCacheKey sLatS sLonS eLatS eLonS
  match lookupA key cache with
  | some (.ok d) => (.ok (some d), cache)
  | some .corrupt => (.error (), cache)
  | none =>
      match response with
      | .exn => (.ok none, cache)
      | .resp code routes =>
          if code = okStr then
            match routes with
            | [] => (.ok none, cache)
            | rd :: _ => (.ok (some (mkSeg rd)), setA key (.ok (mkSeg rd)) cache)
          else (.ok none, cache)

/-! ## The Scenic Route Composer
(src/location_service.py, `RoutingService.generate_scenic_route`) -/

/-- `'leisure' in p['properties'] and p['properties']['leisure'] == 'park'`
(line 222). -/
def isPark (f : Feature) : Bool :=
  lookupA "leisure".toList f.props = some (.s "park".toList)

/-- `'tourism' in p['properties'] or 'historic' in p['properties']`
(line 223). -/
def isAttraction (f : Feature) : Bool :=
  (lookupA "tourism".toList f.props).isSome || (lookupA "historic".toList f.props).isSome

/-- The two priority appends of lines 226-229: the first park if any, then the
first tourism/historic attraction if any (the two may be the same feature). -/
def initSel (features : List Feature) : List Feature :=
  (match features.filter isPark with
   | [] => []
   | p :: _ => [p]) ++
  (match features.filter isAttraction with
   | [] => []
   | a :: _ => [a])

/-- The inner `for`/`break` of lines 234-237: the first feature not already
in `selected` under Python dict equality, if any. -/
def firstNotMem (features selected : List Feature) : Option Feature :=
  features.find? (fun p => ! memF p selected)

/-- The `while` loop of lines 232-237, with explicit fuel.  Each pass either
appends the first unselected feature or — when every feature is already in
`selected` while the guard still holds — changes nothing, so the loop spins
forever; that divergence is modelled as `none` (as is fuel exhaustion). -/
def fillLoop : Nat → List Feature → List Feature → Option (List Feature)
  | 0, features, selected =>
      if selected.length < 3 ∧ features.length > selected.length then none
      else some selected
  | fuel + 1, features, selected =>
      if selected.length < 3 ∧ features.length > selected.length then
        match firstNotMem features selected with
        | some p => fillLoop fuel features (selected ++ [p])
        | none => none
      else some selected

/-- The loop of lines 232-237 reaches its exit condition on these inputs:
some amount of fuel suffices to drive `fillLoop` to a result. -/
def FillTerminates (features selected : List Feature) : Prop :=
  ∃ fuel out, fillLoop fuel features selected = some out

/-- The whole POI-selection phase (lines 220-237).  `none` marks the
diverging runs.  Fuel 3 is exhaustive: the initial list has at most 2
entries and the guard stops at length 3, so at most 3 productive passes can
ever happen. -/
def selectPois (features : List Feature) : Option (List Feature) :=
  fillLoop 3 features (initSel features)

/-- A waypoint as appended to `route_points` (lines 243-245): the Python
tuple `(coords[1], coords[0])`.  For a `Point` feature this is the
`(lat, lon)` pair; for a `LineString` feature it is a pair of coordinate
pairs (the second and first vertex) — Python builds it just the same. -/
inductive WP : Type where
  | ll (lat lon : ℚ)
  | pp (a b : ℚ × ℚ)
deriving DecidableEq, Repr

/-- `(coords[1], coords[0])` for one selected POI; `none` when the
subscripts are out of range (an uncaught `IndexError` in Python). -/
def wpOf : Geometry → Option WP
  | .point lon lat => some (.ll lat lon)
  | .lineString (c0 :: c1 :: _) => some (.pp c1 c0)
  | .lineString _ => none

/-- The waypoints of all selected POIs, in selection order. -/
def wpsOf : List Feature → Option (List WP)
  | [] => some []
  | f :: rest =>
      match wpOf f.geometry, wpsOf rest with
      | some w, some ws => some (w :: ws)
      | _, _ => none

/-- `route_points` (lines 240-248): start, the selected POIs in order,
start again. -/
def routePoints (startLat startLon : ℚ) (poiWps : List WP) : List WP :=
  .ll startLat startLon :: (poiWps ++ [.ll startLat startLon])

/-- Consecutive waypoint pairs: the legs requested by the loop of
lines 261-270. -/
def legsOf : List WP → List (WP × WP)
  | a :: b :: rest => (a, b) :: legsOf (b :: rest)
  | _ => []

/-- The leg loop of lines 261-270: collect the successful segments in
order and accumulate their distances and durations; failed legs are
dropped from both. -/
def composeLegs (oracle : WP → WP → Option Seg) : List (WP × WP) → List Seg × ℚ × ℚ
  | [] => ([], 0, 0)
  | leg :: rest =>
      match oracle leg.1 leg.2 with
      | some seg =>
          let r := composeLegs oracle rest
          (seg :: r.1, seg.distance + r.2.1, seg.duration + r.2.2)
      | none => composeLegs oracle rest

/-- One entry of `combined_route["properties"]["pois"]` (lines 273-278). -/
structure PoiSummary : Type where
  name : TVal
  ptype : Str
  location : Geometry
deriving DecidableEq, Repr

/-- `poi["properties"].get("name", "Unnamed location")` (line 275). -/
def poiName (ps : Props) : TVal :=
  (lookupA "name".toList ps).getD (.s "Unnamed location".toList)

/-- The first property key among leisure/natural/tourism/historic in dict
insertion order, else "point of interest" (line 276). -/
def poiType (ps : Props) : Str :=
  match ps.find? (fun kv => decide (kv.1 ∈ ["leisure".toList, "natural".toList,
      "tourism".toList, "historic".toList])) with
  | some kv => kv.1
  | none => "point of interest".toList

/-- Round half to even at 2 decimal places, Python's `round(x, 2)`
(binary-float representation effects are not modelled). -/
def round2 (q : ℚ) : ℚ :=
  (((if q * 100 - ((⌊q * 100⌋ : ℤ) : ℚ) < 1 / 2 then ⌊q * 100⌋
     else if 1 / 2 < q * 100 - ((⌊q * 100⌋ : ℤ) : ℚ) then ⌊q * 100⌋ + 1
     else if ⌊q * 100⌋ % 2 = 0 then ⌊q * 100⌋ else ⌊q * 100⌋ + 1 : ℤ) : ℚ)) / 100

/-- `combined_route` as returned on line 284: the surviving leg features,
the raw accumulated totals, the per-selected-POI summaries and the
display totals of lines 281-282. -/
structure Route : Type where
  features : List Seg
  total_distance : ℚ
  total_duration : ℚ
  pois : List PoiSummary
  total_distance_km : ℚ
  total_duration_minutes : ℤ
deriving DecidableEq, Repr

/-- The observable outcome of one `generate_scenic_route` call. -/
inductive ComposeResult : Type where
  | insufficient
  | diverges
  | crashes
  | route (r : Route)
deriving DecidableEq, Repr

/-- `RoutingService.generate_scenic_route` (lines 203-284).  The POI
lookup's result is passed in as `pois` (the system fetches it through
`get_pois_around_point`); per-leg routing is abstracted as `oracle`, the
observable behaviour of `get_walking_route` on each waypoint pair.
`insufficient` is the `return None` of line 218, `diverges` the
never-exiting selection loop, `crashes` the uncaught `IndexError` on a
degenerate LineString POI. -/
def generate_scenic_route (startLat startLon : ℚ) (pois : List Feature)
    (oracle : WP → WP → Option Seg) : ComposeResult :=
  if pois.length < 2 then .insufficient
  else
    match selectPois pois with
    | none => .diverges
    | some sel =>
        match wpsOf sel with
        | none => .crashes
        | some poiWps =>
            let r := composeLegs oracle (legsOf (routePoints startLat startLon poiWps))
            .route
              { features := r.1
                total_distance := r.2.1
                total_duration := r.2.2
                pois := sel.map (fun p => ⟨poiName p.props, poiType p.props, p.geometry⟩)
                total_distance_km := round2 (r.2.1 / 1000)
                total_duration_minutes := pyInt (r.2.2 / 60) }

/-! ## The Route Selector
(src/assistant_service.py, `WalkingAssistant.suggest_route`, and
src/models.py, `RouteRequest`) -/

/-- `models.Location` (coordinates only; name/notes play no role here). -/
structure Location : Type where
  latitude : ℚ
  longitude : ℚ
deriving DecidableEq, Repr

/-- `models.RouteRequest`.  `scenic` is `Optional[bool] = False`; `None`
and `False` behave identically in the `if`, so it is modelled as the Bool
of its truthiness. -/
structure RouteRequest : Type where
  start_location : Location
  end_location : Option Location
  max_distance_km : Option ℚ
  scenic : Bool
deriving DecidableEq, Repr

/-- Line 70 of assistant_service.py:
`route_request.max_distance_km or user_data['preferred_max_distance']`.
Python `or` takes the stored preference whenever the supplied value is
falsy — absent, or equal to `0`. -/
def resolvedMaxDistance (requested : Option ℚ) (stored : ℚ) : ℚ :=
  match requested with
  | some q => if q = 0 then stored else q
  | none => stored

/-- Which collaborator `suggest_route` dispatches to, with the numeric
arguments it passes. -/
inductive Dispatch : Type where
  | scenic (lat lon maxd : ℚ)
  | p2p (sLat sLon eLat eLon : ℚ)
  | isochrone (lat lon : ℚ) (walkingMinutes : ℤ) (poiRadius : ℚ)
deriving DecidableEq, Repr

/-- The dispatch logic of `WalkingAssistant.suggest_route` (lines 61-124 of
assistant_service.py): scenic flag first, then an end location, else the
isochrone-plus-POIs branch with `int(max_distance * 12)` minutes and a
`max_distance * 1000` POI radius. -/
def suggest_route (req : RouteRequest) (stored : ℚ) : Dispatch :=
  let maxd := resolvedMaxDistance req.max_distance_km stored
  if req.scenic then
    .scenic req.start_location.latitude req.start_location.longitude maxd
  else
    match req.end_location with
    | some e => .p2p req.start_location.latitude req.start_location.longitude
        e.latitude e.longitude
    | none => .isochrone req.start_location.latitude req.start_location.longitude
        (pyInt (maxd * 12)) (maxd * 1000)

/-- Concrete elements and feature used by the C8 witness. -/
def c8node : Element := ⟨"node".toList, 7, 4, 3, none, []⟩

def c8rel : Element := ⟨"relation".toList, 9, 0, 0, none, []⟩

def c8els : List Element := [c8node, c8rel]

def c8feat : Feature :=
  ⟨.point 3 4, [("osm_id".toList, .n 7), ("osm_type".toList, .s "node".toList)]⟩

/-! ## The selection fill loop: termination and invariants (C10, C4) -/

/-- The features are pairwise distinct under Python dict equality. -/
abbrev PairwiseNE (l : List Feature) : Prop :=
  l.Pairwise (fun a b => featEquivb a b = false)

/-! ## Claim C10: termination of the POI fill loop -/

/-- The duplicated feature of the C10 counterexample. -/
def c10f : Feature := ⟨.point 0 0, []⟩

/-- The C4 counterexample's doubly-tagged feature: both the first park and
the first tourist/historic attraction. -/
def c4f : Feature :=
  ⟨.point 1 1, [("leisure".toList, .s "park".toList),
    ("tourism".toList, .s "attraction".toList)]⟩

/-- A plain companion feature for the C4 counterexample. -/
def c4g : Feature := ⟨.point 2 2, []⟩

/-- A plain point POI used by the composer witnesses/counterexamples. -/
def poiA : Feature := ⟨.point 1 1, []⟩

/-- A second plain point POI used by the composer witnesses/counterexamples. -/
def poiB : Feature := ⟨.point 2 2, []⟩

/-- The POI summary the composer emits for an untagged, unnamed POI. -/
def unnamedSummary (g : Geometry) : PoiSummary :=
  ⟨.s "Unnamed location".toList, "point of interest".toList, g⟩

/-- The success segment used by the C5 witness. -/
def seg5 : Seg := ⟨.lineString [], 100, 60, 1⟩

/-- The three-leg route the composer produces from `poiA`, `poiB` and an
always-successful router. -/
def route5 : Route :=
  ⟨[seg5, seg5, seg5], 300, 180,
    [unnamedSummary (.point 1 1), unnamedSummary (.point 2 2)], 3 / 10, 3⟩

/-- The empty success route the composer produces from `poiA`, `poiB` when
every leg lookup fails. -/
def route0 : Route :=
  ⟨[], 0, 0, [unnamedSummary (.point 1 1), unnamedSummary (.point 2 2)], 0, 0⟩

/-! ## Theorems -/

theorem lookupA_ne_none_mem {α : Type} {k : Str} {l : List (Str × α)}
    (h : lookupA k l ≠ none) : ∃ kv ∈ l, kv.1 = k := by
  induction l with
  | nil => simp [lookupA] at h
  | cons kv rest ih =>
    obtain ⟨k', v⟩ := kv
    by_cases hk : k' = k
    · exact ⟨(k', v), List.mem_cons_self _ _, hk⟩
    · simp only [lookupA, hk, if_false] at h
      obtain ⟨kv, hm, he⟩ := ih h
      exact ⟨kv, List.mem_cons_of_mem _ hm, he⟩

/-- `dictEqb` is exactly lookup extensionality. -/
theorem dictEqb_iff {a b : Props} :
    dictEqb a b = true ↔ ∀ k, lookupA k a = lookupA k b := by
  constructor
  · intro h k
    simp only [dictEqb, Bool.and_eq_true, List.all_eq_true, decide_eq_true_eq] at h
    obtain ⟨ha, hb⟩ := h
    by_cases hka : lookupA k a = none
    · by_cases hkb : lookupA k b = none
      · rw [hka, hkb]
      · obtain ⟨kv, hm, he⟩ := lookupA_ne_none_mem hkb
        have := hb kv hm
        rw [he] at this
        exact this
    · obtain ⟨kv, hm, he⟩ := lookupA_ne_none_mem hka
      have := ha kv hm
      rw [he] at this
      exact this.symm
  · intro h
    simp only [dictEqb, Bool.and_eq_true, List.all_eq_true, decide_eq_true_eq]
    exact ⟨fun kv _ => (h kv.1).symm, fun kv _ => h kv.1⟩

theorem featEquivb_refl (f : Feature) : featEquivb f f = true := by
  simp [featEquivb, dictEqb_iff]

theorem featEquivb_symm {f g : Feature} (h : featEquivb f g = true) :
    featEquivb g f = true := by
  simp only [featEquivb, Bool.and_eq_true, decide_eq_true_eq] at h ⊢
  exact ⟨dictEqb_iff.mpr (fun k => (dictEqb_iff.mp h.1 k).symm), h.2.symm⟩

theorem featEquivb_trans {f g h : Feature} (h₁ : featEquivb f g = true)
    (h₂ : featEquivb g h = true) : featEquivb f h = true := by
  simp only [featEquivb, Bool.and_eq_true, decide_eq_true_eq] at h₁ h₂ ⊢
  exact ⟨dictEqb_iff.mpr (fun k => (dictEqb_iff.mp h₁.1 k).trans (dictEqb_iff.mp h₂.1 k)),
    h₁.2.trans h₂.2⟩

/-- Evaluation rule for `round2` at exact two-decimal rationals. -/
theorem round2_eq_of (q : ℚ) (n : ℤ) (h : q * 100 = (n : ℚ)) :
    round2 q = (n : ℚ) / 100 := by
  unfold round2
  rw [h, Int.floor_intCast, sub_self, if_pos (by norm_num)]

/-- Evaluation rule for `pyInt` at integers. -/
theorem pyInt_intCast (n : ℤ) : pyInt (n : ℚ) = n := by
  unfold pyInt
  rw [Rat.num_intCast, Rat.den_intCast]
  simp [Int.tdiv_one]

/-! ## Association-list lemmas -/

theorem lookupA_setA_self {α : Type} (k : Str) (v : α) (l : List (Str × α)) :
    lookupA k (setA k v l) = some v := by
  induction l with
  | nil => simp [setA, lookupA]
  | cons kv rest ih =>
    obtain ⟨k', v'⟩ := kv
    by_cases hk : k' = k
    · simp [setA, lookupA, hk]
    · simp [setA, lookupA, hk, ih]

theorem lookupA_setA_ne {α : Type} {k k' : Str} (hk : k' ≠ k) (v : α)
    (l : List (Str × α)) : lookupA k (setA k' v l) = lookupA k l := by
  induction l with
  | nil => simp [setA, lookupA, hk]
  | cons kv rest ih =>
    obtain ⟨k'', v'⟩ := kv
    by_cases hk2 : k'' = k'
    · simp [setA, lookupA, hk2, hk]
    · by_cases hk3 : k'' = k
      · simp [setA, lookupA, hk2, hk3, Ne.symm hk]
      · simp [setA, lookupA, hk2, hk3, ih]

/-! ## Claim C6: fewer than 2 POIs means an insufficient-data failure -/

/-- C6 (confirmed).  Whenever the POI lookup feeding the Scenic Route
Composer yields fewer than 2 POIs, `generate_scenic_route` reports the
insufficient-data failure (the `return None` of line 218) and produces no
route object of any kind. -/
theorem scenic_insufficient_pois (startLat startLon : ℚ) (pois : List Feature)
    (oracle : WP → WP → Option Seg) (h : pois.length < 2) :
    generate_scenic_route startLat startLon pois oracle = .insufficient := by
  simp [generate_scenic_route, h]

/-- Witness for C6 at a concrete input: a single-POI pool. -/
theorem scenic_insufficient_pois_witness :
    generate_scenic_route 0 0 [⟨.point 1 1, []⟩] (fun _ _ => none) = .insufficient :=
  scenic_insufficient_pois 0 0 [⟨.point 1 1, []⟩] (fun _ _ => none) (by decide)

/-! ## Claim C7: non-success routing status gives absent result, no caching -/

/-- C7 (confirmed).  On a cache miss, a provider response whose status code
is not `Ok` makes `get_walking_route` return `None` (not an exception) and
leave the cache untouched; moreover the cache is only ever written when the
call returns a successful segment. -/
theorem walking_route_nonsuccess (cache : Cache Seg) (sLatS sLonS eLatS eLatS2 : Str)
    (code : Str) (routes : List RouteData)
    (hmiss : lookupA (walkCacheKey sLatS sLonS eLatS eLatS2) cache = none)
    (hcode : code ≠ okStr) :
    get_walking_route cache sLatS sLonS eLatS eLatS2 (.resp code routes)
        = (.ok none, cache) ∧
      ∀ response : RouterResponse,
        (get_walking_route cache sLatS sLonS eLatS eLatS2 response).2 ≠ cache →
        ∃ seg, (get_walking_route cache sLatS sLonS eLatS eLatS2 response).1
            = .ok (some seg) := by
  constructor
  · simp [get_walking_route, hmiss, hcode]
  · intro response hchanged
    match response with
    | .exn => simp [get_walking_route, hmiss] at hchanged
    | .resp c rs =>
      by_cases hc : c = okStr
      · match rs with
        | [] => simp [get_walking_route, hmiss, hc] at hchanged
        | rd :: _ =>
          exact ⟨mkSeg rd, by simp [get_walking_route, hmiss, hc]⟩
      · simp [get_walking_route, hmiss, hc] at hchanged

/-- Witness for C7 at a concrete input: empty cache, a `NoRoute` status. -/
theorem walking_route_nonsuccess_witness :
    get_walking_route [] "1".toList "2".toList "3".toList "4".toList
        (.resp "NoRoute".toList []) = (.ok none, []) ∧
      ∀ response : RouterResponse,
        (get_walking_route [] "1".toList "2".toList "3".toList "4".toList response).2 ≠ [] →
        ∃ seg, (get_walking_route [] "1".toList "2".toList "3".toList "4".toList response).1
            = .ok (some seg) :=
  walking_route_nonsuccess [] "1".toList "2".toList "3".toList "4".toList
    "NoRoute".toList [] (by decide) (by decide)

/-! ## Claim C9: caller-supplied max distance vs stored preference -/

/-- C9 counterexample.  A request that does supply a max distance — the
value `0` — is dispatched with the stored preference `5` instead of the
supplied value: Python's `or` treats a supplied `0.0` as absent. -/
theorem suggest_route_zero_counterexample :
    (RouteRequest.mk ⟨1, 2⟩ none (some 0) true).max_distance_km = some 0 ∧
      suggest_route ⟨⟨1, 2⟩, none, some 0, true⟩ 5 = .scenic 1 2 5 := by
  constructor
  · rfl
  · simp [suggest_route, resolvedMaxDistance]

/-- C9 amended.  A caller-supplied nonzero max distance overrides the
stored preference; a supplied value of `0`, like an absent value, falls
back to the stored preference (Python falsiness of `0.0`). -/
theorem suggest_route_max_distance (req : RouteRequest) (stored q : ℚ)
    (hscenic : req.scenic = true) :
    (req.max_distance_km = some q → q ≠ 0 →
        suggest_route req stored
          = .scenic req.start_location.latitude req.start_location.longitude q) ∧
      (req.max_distance_km = some 0 →
        suggest_route req stored
          = .scenic req.start_location.latitude req.start_location.longitude stored) ∧
      (req.max_distance_km = none →
        suggest_route req stored
          = .scenic req.start_location.latitude req.start_location.longitude stored) := by
  refine ⟨fun hq hq0 => ?_, fun hq => ?_, fun hq => ?_⟩
  · simp [suggest_route, resolvedMaxDistance, hq, hscenic, hq0]
  · simp [suggest_route, resolvedMaxDistance, hq, hscenic]
  · simp [suggest_route, resolvedMaxDistance, hq, hscenic]

/-- Witness for C9 amended at a concrete input: supplied `7` wins over
stored `5`. -/
theorem suggest_route_max_distance_witness :
    suggest_route ⟨⟨1, 2⟩, none, some 7, true⟩ 5 = .scenic 1 2 7 :=
  (suggest_route_max_distance ⟨⟨1, 2⟩, none, some 7, true⟩ 5 7 (by decide)).1
    (by decide) (by decide)

/-! ## Claim C3: corrupt cache entries -/

/-- C3 counterexample.  A POI lookup whose cache holds a corrupt entry
under the queried key raises the decode error to the caller instead of
treating it as a miss: the cache read of lines 42-44 has no exception
handler. -/
theorem cache_corrupt_counterexample :
    get_pois_around_point
        [(poisCacheKey "52.52".toList "13.405".toList "500".toList defaultPoiTypes,
          .corrupt)]
        "52.52".toList "13.405".toList "500".toList none [] = .error () := by
  rfl

/-- C3 amended.  A corrupt or unreadable cache entry is not recovered as a
miss: both the POI lookup and the point-to-point router propagate the
decode failure to the caller, and only an absent entry triggers a
re-fetch. -/
theorem cache_corrupt_raises (cache : Cache (List Feature)) (latS lonS radS : Str)
    (poi_types : Option (List Str)) (elements : List Element)
    (cache2 : Cache Seg) (sLatS sLonS eLatS eLonS : Str) (response : RouterResponse)
    (h1 : lookupA (poisCacheKey latS lonS radS (poi_types.getD defaultPoiTypes)) cache
        = some .corrupt)
    (h2 : lookupA (walkCacheKey sLatS sLonS eLatS eLonS) cache2 = some .corrupt) :
    get_pois_around_point cache latS lonS radS poi_types elements = .error () ∧
      get_walking_route cache2 sLatS sLonS eLatS eLonS response
        = (.error (), cache2) := by
  constructor
  · simp [get_pois_around_point, h1]
  · simp [get_walking_route, h2]

/-- Witness for C3 amended at concrete corrupt caches. -/
theorem cache_corrupt_raises_witness :
    get_pois_around_point
        [(poisCacheKey "1".toList "2".toList "3".toList ["a=b".toList], .corrupt)]
        "1".toList "2".toList "3".toList (some ["a=b".toList]) [] = .error () ∧
      get_walking_route [(walkCacheKey "1".toList "2".toList "3".toList "4".toList,
          .corrupt)]
        "1".toList "2".toList "3".toList "4".toList .exn
        = (.error (), [(walkCacheKey "1".toList "2".toList "3".toList "4".toList,
          .corrupt)]) :=
  cache_corrupt_raises
    [(poisCacheKey "1".toList "2".toList "3".toList ["a=b".toList], .corrupt)]
    "1".toList "2".toList "3".toList (some ["a=b".toList]) []
    [(walkCacheKey "1".toList "2".toList "3".toList "4".toList, .corrupt)]
    "1".toList "2".toList "3".toList "4".toList .exn (by decide) (by decide)

/-! ## Claim C1: cache-key dependence on filter ordering -/

/-- C1 counterexample.  Two orderings of the same two-filter set produce
different POI cache keys: the key of line 38 joins the filters in
caller-supplied order, without sorting. -/
theorem poisCacheKey_order_counterexample :
    List.Perm ["leisure=park".toList, "natural=wood".toList]
        ["natural=wood".toList, "leisure=park".toList] ∧
      poisCacheKey "52.52".toList "13.405".toList "500".toList
          ["leisure=park".toList, "natural=wood".toList]
        ≠ poisCacheKey "52.52".toList "13.405".toList "500".toList
          ["natural=wood".toList, "leisure=park".toList] := by
  constructor
  · decide
  · decide

theorem append_cons_underscore_inj : ∀ {a b x y : Str}, '_' ∉ a → '_' ∉ b →
    a ++ '_' :: x = b ++ '_' :: y → a = b ∧ x = y := by
  intro a
  induction a with
  | nil =>
    intro b x y _ hb h
    match b with
    | [] => simpa using h
    | c :: b' =>
      simp only [List.nil_append, List.cons_append, List.cons.injEq] at h
      exact absurd h.1.symm (fun hc => hb (hc ▸ List.mem_cons_self c b'))
  | cons c a' ih =>
    intro b x y ha hb h
    match b with
    | [] =>
      simp only [List.cons_append, List.nil_append, List.cons.injEq] at h
      exact absurd h.1 (fun hc => ha (hc ▸ List.mem_cons_self c a'))
    | d :: b' =>
      simp only [List.cons_append, List.cons.injEq] at h
      obtain ⟨hcd, htail⟩ := h
      have ha' : '_' ∉ a' := fun hm => ha (List.mem_cons_of_mem c hm)
      have hb' : '_' ∉ b' := fun hm => hb (List.mem_cons_of_mem d hm)
      obtain ⟨he, hxy⟩ := ih ha' hb' htail
      exact ⟨by rw [hcd, he], hxy⟩

theorem joinU_inj : ∀ (ps qs : List Str), (∀ s ∈ ps, '_' ∉ s) →
    (∀ s ∈ qs, '_' ∉ s) → ps.length = qs.length → joinU ps = joinU qs → ps = qs := by
  intro ps
  induction ps with
  | nil =>
    intro qs _ _ hlen _
    exact (List.length_eq_zero.mp hlen.symm).symm ▸ rfl
  | cons s ps' ih =>
    intro qs hps hqs hlen hj
    match qs with
    | [] => simp at hlen
    | t :: qs' =>
      match ps', qs' with
      | [], [] => simpa [joinU] using hj
      | [], _ :: _ => simp at hlen
      | _ :: _, [] => simp at hlen
      | p2 :: ps'', q2 :: qs'' =>
        have hs : '_' ∉ s := hps s (List.mem_cons_self _ _)
        have ht : '_' ∉ t := hqs t (List.mem_cons_self _ _)
        have hj' : s ++ '_' :: joinU (p2 :: ps'') = t ++ '_' :: joinU (q2 :: qs'') := hj
        obtain ⟨hst, hjj⟩ := append_cons_underscore_inj hs ht hj'
        have := ih (q2 :: qs'')
          (fun u hu => hps u (List.mem_cons_of_mem _ hu))
          (fun u hu => hqs u (List.mem_cons_of_mem _ hu))
          (by simpa using hlen) hjj
        rw [hst, this]

/-- C1 amended.  The POI cache key is deterministic in the caller-supplied
filter list, but it depends on the list's order: for filters that do not
contain the `'_'` separator, two orderings of the same filter set yield the
same key exactly when they are the same list, so permuting the filters
changes the key (and so the cache slot). -/
theorem poisCacheKey_order_amended (latS lonS radS : Str) (ps qs : List Str)
    (hperm : List.Perm ps qs) (hfree : ∀ s ∈ ps, '_' ∉ s) :
    poisCacheKey latS lonS radS ps = poisCacheKey latS lonS radS qs ↔ ps = qs := by
  constructor
  · intro h
    have h1 : '_' :: (lonS ++ '_' :: (radS ++ '_' :: joinU ps))
        = '_' :: (lonS ++ '_' :: (radS ++ '_' :: joinU qs)) :=
      List.append_cancel_left h
    have h2a : '_' :: (radS ++ '_' :: joinU ps) = '_' :: (radS ++ '_' :: joinU qs) :=
      List.append_cancel_left (List.cons.inj h1).2
    have h2b : radS ++ '_' :: joinU ps = radS ++ '_' :: joinU qs := (List.cons.inj h2a).2
    have h3 : joinU ps = joinU qs := (List.cons.inj (List.append_cancel_left h2b)).2
    exact joinU_inj ps qs hfree
      (fun s hs => hfree s (hperm.mem_iff.mpr hs)) hperm.length_eq h3
  · intro h
    rw [h]

/-- Witness for C1 amended: identical orderings give identical keys, and
the hypothesis set is satisfiable at a concrete input. -/
theorem poisCacheKey_order_amended_witness :
    poisCacheKey "1".toList "2".toList "3".toList
        ["leisure=park".toList, "natural=wood".toList]
      = poisCacheKey "1".toList "2".toList "3".toList
        ["leisure=park".toList, "natural=wood".toList] :=
  (poisCacheKey_order_amended "1".toList "2".toList "3".toList
    ["leisure=park".toList, "natural=wood".toList]
    ["leisure=park".toList, "natural=wood".toList]
    (by decide) (by decide)).mpr rfl

/-! ## Claim C8: shape of normalized POI features -/

theorem elementProps_osm_id (e : Element) :
    lookupA "osm_id".toList (elementProps e) = some (.n e.eid) := by
  unfold elementProps
  rw [lookupA_setA_ne (by decide) (TVal.s e.etype) _]
  exact lookupA_setA_self _ _ _

theorem elementProps_osm_type (e : Element) :
    lookupA "osm_type".toList (elementProps e) = some (.s e.etype) :=
  lookupA_setA_self _ _ _

theorem normalizeElement_some {e : Element} {f : Feature}
    (h : normalizeElement e = some f) :
    f.props = elementProps e ∧
      ((∃ lon lat, f.geometry = .point lon lat) ∨ ∃ cs, f.geometry = .lineString cs) := by
  unfold normalizeElement at h
  by_cases h1 : e.etype = "node".toList
  · simp only [h1, if_true] at h
    cases h
    exact ⟨rfl, .inl ⟨e.lon, e.lat, rfl⟩⟩
  · by_cases h2 : e.etype = "way".toList
    · simp only [h1, if_false, h2, if_true] at h
      cases hg : e.geom with
      | some nodes =>
        rw [hg] at h
        cases h
        exact ⟨rfl, .inr ⟨_, rfl⟩⟩
      | none => rw [hg] at h; cases h
    · simp only [h1, if_false, h2] at h
      cases h

theorem normalizeElement_skip {e : Element} (h1 : e.etype ≠ "node".toList)
    (h2 : ¬(e.etype = "way".toList ∧ e.geom.isSome)) :
    normalizeElement e = none := by
  unfold normalizeElement
  by_cases hw : e.etype = "way".toList
  · cases hg : e.geom with
    | some nodes => exact absurd ⟨hw, by rw [hg]; rfl⟩ h2
    | none => rw [if_neg h1, if_pos hw]
  · rw [if_neg h1, if_neg hw]

/-- C8 (confirmed).  Every feature that the POI Lookup emits from the raw
provider elements has a `Point` or `LineString` geometry and carries the
origin element's identifier and type in its properties (`osm_id`,
`osm_type`); raw elements that are neither nodes nor ways-with-geometry
(relations in particular) are silently skipped. -/
theorem pois_features_shape (elements : List Element) :
    (∀ f ∈ poisFeatures elements,
        ((∃ lon lat, f.geometry = .point lon lat) ∨ ∃ cs, f.geometry = .lineString cs) ∧
          ∃ e ∈ elements, normalizeElement e = some f ∧
            lookupA "osm_id".toList f.props = some (.n e.eid) ∧
            lookupA "osm_type".toList f.props = some (.s e.etype)) ∧
      ∀ e ∈ elements, e.etype ≠ "node".toList →
        ¬(e.etype = "way".toList ∧ e.geom.isSome) → normalizeElement e = none := by
  constructor
  · intro f hf
    obtain ⟨e, he, hne⟩ := List.mem_filterMap.mp hf
    obtain ⟨hprops, hshape⟩ := normalizeElement_some hne
    refine ⟨hshape, e, he, hne, ?_, ?_⟩
    · rw [hprops]; exact elementProps_osm_id e
    · rw [hprops]; exact elementProps_osm_type e
  · intro e _ h1 h2
    exact normalizeElement_skip h1 h2

/-- Witness for C8: a node and a relation element; the node's feature is a
`Point` carrying its origin fields, the relation is dropped. -/
theorem pois_features_shape_witness :
    (((∃ lon lat, c8feat.geometry = .point lon lat) ∨
        ∃ cs, c8feat.geometry = .lineString cs) ∧
      ∃ e ∈ c8els, normalizeElement e = some c8feat ∧
        lookupA "osm_id".toList c8feat.props = some (.n e.eid) ∧
        lookupA "osm_type".toList c8feat.props = some (.s e.etype)) ∧
      normalizeElement c8rel = none := by
  have h := pois_features_shape c8els
  exact ⟨h.1 c8feat (by decide), h.2 c8rel (by decide) (by decide) (by decide)⟩

theorem memF_iff {p : Feature} {l : List Feature} :
    memF p l = true ↔ ∃ s ∈ l, featEquivb p s = true := by
  simp [memF, List.any_eq_true]

theorem memF_eq_false_iff {p : Feature} {l : List Feature} :
    memF p l = false ↔ ∀ s ∈ l, featEquivb p s = false := by
  simp [memF, List.any_eq_false]

/-- Counting argument: if the pool is pairwise distinct and every pool
feature already occurs (up to dict equality) in `sel`, then the pool is no
longer than `sel`. -/
theorem length_le_of_all_memF : ∀ (fs sel : List Feature),
    fs.Pairwise (fun a b => featEquivb a b = false) →
    (∀ p ∈ fs, memF p sel = true) → fs.length ≤ sel.length := by
  intro fs
  induction fs with
  | nil => intro sel _ _; simp
  | cons f rest ih =>
    intro sel hpw hall
    obtain ⟨s, hs, hfs⟩ := memF_iff.mp (hall f (List.mem_cons_self _ _))
    have hrest : ∀ p ∈ rest, memF p (sel.erase s) = true := by
      intro p hp
      obtain ⟨s', hs', hps'⟩ := memF_iff.mp (hall p (List.mem_cons_of_mem _ hp))
      have hfp : featEquivb f p = false := (List.pairwise_cons.mp hpw).1 p hp
      have hsne : s' ≠ s := by
        intro he
        subst he
        have : featEquivb f p = true := featEquivb_trans hfs (featEquivb_symm hps')
        rw [this] at hfp
        cases hfp
      exact memF_iff.mpr ⟨s', (List.mem_erase_of_ne hsne).mpr hs', hps'⟩
    have hlen := ih (sel.erase s) (List.pairwise_cons.mp hpw).2 hrest
    have hone := List.length_erase_of_mem hs
    have hpos := List.length_pos_of_mem hs
    simp only [List.length_cons]
    omega

/-- With a pairwise-distinct pool and a strictly shorter `sel`, the inner
`for` of lines 234-237 always finds a feature to add. -/
theorem firstNotMem_some {fs sel : List Feature} (hpw : PairwiseNE fs)
    (hlen : sel.length < fs.length) : ∃ p, firstNotMem fs sel = some p := by
  cases hfm : firstNotMem fs sel with
  | some p => exact ⟨p, rfl⟩
  | none =>
    have hall : ∀ p ∈ fs, memF p sel = true := by
      intro p hp
      have := List.find?_eq_none.mp hfm p hp
      simpa using this
    exact absurd (length_le_of_all_memF fs sel hpw hall) (by omega)

/-- Fill-loop termination with explicit fuel accounting: with a
pairwise-distinct pool the loop always exits, and fuel `3` is always
enough once at most `3 - sel.length` productive passes remain. -/
theorem fillLoop_some (fs : List Feature) (hpw : PairwiseNE fs) :
    ∀ fuel sel, 3 ≤ sel.length + fuel →
      ∃ out, fillLoop fuel fs sel = some out := by
  intro fuel
  induction fuel with
  | zero =>
    intro sel h3
    refine ⟨sel, ?_⟩
    unfold fillLoop
    rw [if_neg]
    rintro ⟨ha, -⟩
    omega
  | succ n ih =>
    intro sel h3
    by_cases hg : sel.length < 3 ∧ fs.length > sel.length
    · obtain ⟨p, hp⟩ := firstNotMem_some hpw hg.2
      obtain ⟨out, hout⟩ := ih (sel ++ [p]) (by simp; omega)
      refine ⟨out, ?_⟩
      unfold fillLoop
      rw [if_pos hg, hp]
      exact hout
    · refine ⟨sel, ?_⟩
      unfold fillLoop
      rw [if_neg hg]

/-- C10 counterexample.  With a POI pool holding two equal features and no
park/attraction tags, the initial selection is empty and the fill loop of
lines 232-237 never exits: after one pass every pool feature is already in
`selected`, yet the guard `len(features) > len(selected)` stays true, so
the `while` body stops making progress and spins forever. -/
theorem fill_loop_dup_counterexample :
    initSel [c10f, c10f] = [] ∧ ¬ FillTerminates [c10f, c10f] [] := by
  refine ⟨by decide, ?_⟩
  have aux : ∀ fuel, fillLoop fuel [c10f, c10f] [c10f] = none := by
    intro fuel
    induction fuel with
    | zero => decide
    | succ n ih =>
      unfold fillLoop
      rw [if_pos (by decide)]
      have hfm : firstNotMem [c10f, c10f] [c10f] = none := by decide
      rw [hfm]
  rintro ⟨fuel, out, h⟩
  match fuel with
  | 0 =>
    rw [show fillLoop 0 [c10f, c10f] [] = none from by decide] at h
    cases h
  | n + 1 =>
    unfold fillLoop at h
    rw [if_pos (by decide)] at h
    rw [show firstNotMem [c10f, c10f] [] = some c10f from by decide] at h
    have h' : fillLoop n [c10f, c10f] [c10f] = some out := h
    rw [aux n] at h'
    cases h'

/-- C10 amended.  The fill loop terminates from any `selected` state
provided the POI features are pairwise distinct under dict equality; with
duplicate (equal) features in the pool, the loop can instead run forever
(see the counterexample). -/
theorem fill_loop_terminates (features selected : List Feature)
    (hpw : PairwiseNE features) : FillTerminates features selected := by
  obtain ⟨out, h⟩ := fillLoop_some features hpw 3 selected (by omega)
  exact ⟨3, out, h⟩

/-- Witness for C10 amended: two distinct plain features. -/
theorem fill_loop_terminates_witness :
    FillTerminates [⟨.point 1 1, []⟩, ⟨.point 2 2, []⟩] [] :=
  fill_loop_terminates [⟨.point 1 1, []⟩, ⟨.point 2 2, []⟩] [] (by decide)

/-! ## Claim C4: the POI selection policy -/

theorem mem_headSingleton {f : Feature} : ∀ {l : List Feature},
    f ∈ (match l with | [] => ([] : List Feature) | p :: _ => [p]) → f ∈ l := by
  intro l h
  cases l with
  | nil => cases h
  | cons p rest =>
    rw [List.mem_singleton] at h
    rw [h]
    exact List.mem_cons_self p rest

theorem initSel_subset (fs : List Feature) : ∀ f ∈ initSel fs, f ∈ fs := by
  intro f hf
  unfold initSel at hf
  rcases List.mem_append.mp hf with h | h
  · exact List.mem_of_mem_filter (mem_headSingleton h)
  · exact List.mem_of_mem_filter (mem_headSingleton h)

theorem initSel_length (fs : List Feature) : (initSel fs).length ≤ 2 := by
  unfold initSel
  cases fs.filter isPark <;> cases fs.filter isAttraction <;> simp

theorem initSel_pairwise (fs : List Feature)
    (hpa : ∀ p ∈ (fs.filter isPark).head?.toList,
      ∀ a ∈ (fs.filter isAttraction).head?.toList, featEquivb p a = false) :
    PairwiseNE (initSel fs) := by
  unfold initSel
  cases hp : fs.filter isPark with
  | nil =>
    cases ha : fs.filter isAttraction with
    | nil => exact List.Pairwise.nil
    | cons a l => exact List.pairwise_singleton _ _
  | cons p l =>
    cases ha : fs.filter isAttraction with
    | nil => exact List.pairwise_singleton _ _
    | cons a l' =>
      have hfa : featEquivb p a = false := by
        refine hpa p ?_ a ?_
        · rw [hp]; simp
        · rw [ha]; simp
      show List.Pairwise (fun x y => featEquivb x y = false) [p, a]
      refine List.pairwise_cons.mpr ⟨?_, List.pairwise_singleton _ _⟩
      intro b hb
      rw [List.mem_singleton] at hb
      subst hb
      exact hfa

/-- Fill-loop invariant: starting from a duplicate-free `sel` drawn from a
pairwise-distinct pool, the loop exits with a duplicate-free extension of
`sel` drawn from the pool, of length `max sel.length (min 3 fs.length)`. -/
theorem fillLoop_invar (fs : List Feature) (hpw : PairwiseNE fs) :
    ∀ fuel sel, 3 ≤ sel.length + fuel → PairwiseNE sel → (∀ f ∈ sel, f ∈ fs) →
      ∃ out, fillLoop fuel fs sel = some out ∧ PairwiseNE out ∧
        (∃ t, out = sel ++ t) ∧ (∀ f ∈ out, f ∈ fs) ∧
        out.length = max sel.length (min 3 fs.length) := by
  intro fuel
  induction fuel with
  | zero =>
    intro sel h3 hpws hsub
    refine ⟨sel, ?_, hpws, ⟨[], by simp⟩, hsub, ?_⟩
    · unfold fillLoop
      rw [if_neg]
      rintro ⟨ha, -⟩
      omega
    · omega
  | succ n ih =>
    intro sel h3 hpws hsub
    by_cases hg : sel.length < 3 ∧ fs.length > sel.length
    · obtain ⟨p, hp⟩ := firstNotMem_some hpw hg.2
      have hpmem : p ∈ fs := List.mem_of_find?_eq_some hp
      have hpnot : memF p sel = false := by
        have := List.find?_some hp
        simpa using this
      have hpw' : PairwiseNE (sel ++ [p]) := by
        refine List.pairwise_append.mpr ⟨hpws, List.pairwise_singleton _ _, ?_⟩
        intro a ha b hb
        rw [List.mem_singleton] at hb
        rw [hb]
        have hps : featEquivb p a = false := memF_eq_false_iff.mp hpnot a ha
        by_cases hfa : featEquivb a p = true
        · have hx : featEquivb p a = true := featEquivb_symm hfa
          rw [hps] at hx
          cases hx
        · simpa using hfa
      have hsub' : ∀ f ∈ sel ++ [p], f ∈ fs := by
        intro f hf
        rcases List.mem_append.mp hf with h | h
        · exact hsub f h
        · rw [List.mem_singleton] at h
          subst h
          exact hpmem
      obtain ⟨out, hout, hpwo, ⟨t, ht⟩, hsubo, hlen⟩ :=
        ih (sel ++ [p]) (by simp; omega) hpw' hsub'
      refine ⟨out, ?_, hpwo, ⟨p :: t, by rw [ht]; simp⟩, hsubo, ?_⟩
      · unfold fillLoop
        rw [if_pos hg, hp]
        exact hout
      · rw [hlen]
        simp only [List.length_append, List.length_singleton]
        omega
    · refine ⟨sel, ?_, hpws, ⟨[], by simp⟩, hsub, ?_⟩
      · unfold fillLoop
        rw [if_neg hg]
      · rw [not_and_or] at hg
        push_neg at hg
        omega

/-- C4 counterexample.  When one feature is simultaneously the first park
and the first tourist/historic attraction, lines 226-229 append it twice:
the selected list contains a duplicate POI, and the not-yet-selected
feature `c4g` is passed over even though fewer than 3 distinct POIs were
chosen. -/
theorem select_pois_duplicate_counterexample :
    selectPois [c4f, c4g] = some [c4f, c4f] ∧ ¬ ([c4f, c4f].Nodup) := by
  constructor
  · decide
  · decide

/-- C4 amended.  The selection policy is as claimed — first park, then
first tourist/historic attraction, then first not-yet-selected features in
original order, stopping at 3 or pool exhaustion — and yields a
duplicate-free list of length `min 3 (pool size)`, provided the pool is
pairwise distinct and the first park is not also the first attraction;
when one feature is both, it is selected twice (see the counterexample). -/
theorem select_pois_amended (pois : List Feature) (h2 : 2 ≤ pois.length)
    (hpw : PairwiseNE pois)
    (hpa : ∀ p ∈ (pois.filter isPark).head?.toList,
      ∀ a ∈ (pois.filter isAttraction).head?.toList, featEquivb p a = false) :
    ∃ sel, selectPois pois = some sel ∧ PairwiseNE sel ∧
      sel.length = min 3 pois.length ∧ (∃ t, sel = initSel pois ++ t) ∧
      ∀ f ∈ sel, f ∈ pois := by
  obtain ⟨out, hout, hpwo, hpre, hsubo, hlen⟩ :=
    fillLoop_invar pois hpw 3 (initSel pois) (by omega)
      (initSel_pairwise pois hpa) (initSel_subset pois)
  refine ⟨out, hout, hpwo, ?_, hpre, hsubo⟩
  rw [hlen]
  have := initSel_length pois
  omega

/-- Witness for C4 amended: a park, a distinct attraction and a plain
feature; all three get selected, in priority order, without duplicates. -/
theorem select_pois_amended_witness :
    ∃ sel, selectPois [⟨.point 1 1, [("leisure".toList, .s "park".toList)]⟩,
        ⟨.point 2 2, [("tourism".toList, .s "museum".toList)]⟩,
        ⟨.point 3 3, []⟩] = some sel ∧ PairwiseNE sel ∧
      sel.length = min 3 (3 : ℕ) ∧
      (∃ t, sel = initSel [⟨.point 1 1, [("leisure".toList, .s "park".toList)]⟩,
        ⟨.point 2 2, [("tourism".toList, .s "museum".toList)]⟩,
        ⟨.point 3 3, []⟩] ++ t) ∧
      ∀ f ∈ sel, f ∈ [⟨.point 1 1, [("leisure".toList, .s "park".toList)]⟩,
        ⟨.point 2 2, [("tourism".toList, .s "museum".toList)]⟩,
        (⟨.point 3 3, []⟩ : Feature)] :=
  select_pois_amended
    [⟨.point 1 1, [("leisure".toList, .s "park".toList)]⟩,
      ⟨.point 2 2, [("tourism".toList, .s "museum".toList)]⟩, ⟨.point 3 3, []⟩]
    (by decide) (by decide) (by decide)

/-! ## Composer output: claims C2 and C5 -/

theorem composeLegs_features (oracle : WP → WP → Option Seg) :
    ∀ legs, (composeLegs oracle legs).1 = legs.filterMap (fun l => oracle l.1 l.2) := by
  intro legs
  induction legs with
  | nil => rfl
  | cons leg rest ih =>
    unfold composeLegs
    cases ho : oracle leg.1 leg.2 with
    | some seg => simp [List.filterMap_cons, ho, ih]
    | none => simp [List.filterMap_cons, ho, ih]

theorem composeLegs_totals (oracle : WP → WP → Option Seg) :
    ∀ legs, (composeLegs oracle legs).2.1
        = (((composeLegs oracle legs).1.map Seg.distance).sum : ℚ) ∧
      (composeLegs oracle legs).2.2
        = (((composeLegs oracle legs).1.map Seg.duration).sum : ℚ) := by
  intro legs
  induction legs with
  | nil => exact ⟨rfl, rfl⟩
  | cons leg rest ih =>
    unfold composeLegs
    cases ho : oracle leg.1 leg.2 with
    | some seg => simp [ih.1, ih.2]
    | none => exact ih

/-- Structure of every successful `generate_scenic_route` return value. -/
theorem generate_scenic_route_eq {sLat sLon : ℚ} {pois : List Feature}
    {oracle : WP → WP → Option Seg} {r : Route}
    (h : generate_scenic_route sLat sLon pois oracle = .route r) :
    ∃ sel poiWps, selectPois pois = some sel ∧ wpsOf sel = some poiWps ∧
      r = { features := (composeLegs oracle (legsOf (routePoints sLat sLon poiWps))).1
            total_distance := (composeLegs oracle (legsOf (routePoints sLat sLon poiWps))).2.1
            total_duration := (composeLegs oracle (legsOf (routePoints sLat sLon poiWps))).2.2
            pois := sel.map (fun p => ⟨poiName p.props, poiType p.props, p.geometry⟩)
            total_distance_km := round2
              ((composeLegs oracle (legsOf (routePoints sLat sLon poiWps))).2.1 / 1000)
            total_duration_minutes := pyInt
              ((composeLegs oracle (legsOf (routePoints sLat sLon poiWps))).2.2 / 60) } := by
  unfold generate_scenic_route at h
  split at h
  · cases h
  · split at h
    · cases h
    next sel hsel =>
      split at h
      · cases h
      next poiWps hwps =>
        cases h
        exact ⟨sel, poiWps, hsel, hwps, rfl⟩

/-- C5 (confirmed).  Every successfully composed scenic route has feature
list equal to the successful legs, in visiting order (start, then each
selected POI in selection order, then start again), with failed legs
dropped; its `total_distance_km` is `round(sum of obtained leg distances
/ 1000, 2)`, its `total_duration_minutes` the truncated whole-minute
value of the summed obtained leg durations, and one summary per selected
POI. -/
theorem scenic_route_totals (sLat sLon : ℚ) (pois : List Feature)
    (oracle : WP → WP → Option Seg) (r : Route)
    (h : generate_scenic_route sLat sLon pois oracle = .route r) :
    ∃ sel poiWps, selectPois pois = some sel ∧ wpsOf sel = some poiWps ∧
      r.features = (legsOf (routePoints sLat sLon poiWps)).filterMap
        (fun l => oracle l.1 l.2) ∧
      r.total_distance_km = round2 (((r.features.map Seg.distance).sum : ℚ) / 1000) ∧
      r.total_duration_minutes = pyInt (((r.features.map Seg.duration).sum : ℚ) / 60) ∧
      r.pois = sel.map (fun p => ⟨poiName p.props, poiType p.props, p.geometry⟩) := by
  obtain ⟨sel, poiWps, hsel, hwps, hr⟩ := generate_scenic_route_eq h
  subst hr
  refine ⟨sel, poiWps, hsel, hwps, ?_, ?_, ?_, rfl⟩
  · exact composeLegs_features oracle _
  · rw [(composeLegs_totals oracle _).1]
  · rw [(composeLegs_totals oracle _).2]

/-- Concrete evaluation of a successful composer run. -/
theorem gsr_eval_some :
    generate_scenic_route 0 0 [poiA, poiB] (fun _ _ => some seg5) = .route route5 := by
  unfold generate_scenic_route
  rw [if_neg (by decide)]
  simp only [show selectPois [poiA, poiB] = some [poiA, poiB] from by decide,
    show wpsOf [poiA, poiB] = some [WP.ll 1 1, WP.ll 2 2] from by decide]
  rw [show composeLegs (fun _ _ => some seg5)
      (legsOf (routePoints 0 0 [WP.ll 1 1, WP.ll 2 2]))
      = ([seg5, seg5, seg5], 100 + (100 + (100 + 0)), 60 + (60 + (60 + 0))) from rfl]
  dsimp only
  rw [show (100 : ℚ) + (100 + (100 + 0)) = 300 from by norm_num]
  rw [show (60 : ℚ) + (60 + (60 + 0)) = 180 from by norm_num]
  rw [round2_eq_of ((300 : ℚ) / 1000) 30 (by norm_num)]
  rw [show ((180 : ℚ) / 60) = ((3 : ℤ) : ℚ) from by norm_num, pyInt_intCast]
  rw [show ([poiA, poiB] : List Feature).map
      (fun p => PoiSummary.mk (poiName p.props) (poiType p.props) p.geometry)
      = [unnamedSummary (.point 1 1), unnamedSummary (.point 2 2)] from by decide]
  unfold route5
  norm_num [ComposeResult.route.injEq, Route.mk.injEq]

/-- Witness for C5: with two POIs and an always-successful router, the
theorem yields the concrete three-leg route. -/

theorem scenic_route_totals_witness :
    ∃ sel poiWps, selectPois [poiA, poiB] = some sel ∧ wpsOf sel = some poiWps ∧
      route5.features = (legsOf (routePoints 0 0 poiWps)).filterMap
        (fun l => (fun _ _ => some seg5 : WP → WP → Option Seg) l.1 l.2) ∧
      route5.total_distance_km
        = round2 (((route5.features.map Seg.distance).sum : ℚ) / 1000) ∧
      route5.total_duration_minutes
        = pyInt (((route5.features.map Seg.duration).sum : ℚ) / 60) ∧
      route5.pois = sel.map (fun p => ⟨poiName p.props, poiType p.props, p.geometry⟩) :=
  scenic_route_totals 0 0 [poiA, poiB] (fun _ _ => some seg5) route5 gsr_eval_some

theorem composeLegs_all_none {oracle : WP → WP → Option Seg}
    (hfail : ∀ a b, oracle a b = none) :
    ∀ legs, composeLegs oracle legs = ([], 0, 0) := by
  intro legs
  induction legs with
  | nil => rfl
  | cons leg rest ih =>
    unfold composeLegs
    rw [hfail leg.1 leg.2]
    exact ih

/-- Concrete evaluation of an all-legs-fail composer run. -/
theorem gsr_eval_none :
    generate_scenic_route 0 0 [poiA, poiB] (fun _ _ => none) = .route route0 := by
  unfold generate_scenic_route
  rw [if_neg (by decide)]
  simp only [show selectPois [poiA, poiB] = some [poiA, poiB] from by decide,
    show wpsOf [poiA, poiB] = some [WP.ll 1 1, WP.ll 2 2] from by decide]
  rw [show composeLegs (fun _ _ => none)
      (legsOf (routePoints 0 0 [WP.ll 1 1, WP.ll 2 2]))
      = (([] : List Seg), (0 : ℚ), (0 : ℚ)) from rfl]
  dsimp only
  rw [round2_eq_of ((0 : ℚ) / 1000) 0 (by norm_num)]
  rw [show ((0 : ℚ) / 60) = ((0 : ℤ) : ℚ) from by norm_num, pyInt_intCast]
  rw [show ([poiA, poiB] : List Feature).map
      (fun p => PoiSummary.mk (poiName p.props) (poiType p.props) p.geometry)
      = [unnamedSummary (.point 1 1), unnamedSummary (.point 2 2)] from by decide]
  unfold route0
  norm_num [ComposeResult.route.injEq, Route.mk.injEq]

/-- C2 counterexample.  A scenic request with 2 POIs (so the minimum-POI
check passes) whose every per-leg routing lookup fails returns a success
value — a route object — whose feature list is empty and whose totals are
all zero: the silent empty success the claim rules out. -/
theorem scenic_empty_success_counterexample :
    2 ≤ ([poiA, poiB] : List Feature).length ∧
      generate_scenic_route 0 0 [poiA, poiB] (fun _ _ => none) = .route route0 ∧
      route0.features = [] ∧ route0.total_distance_km = 0 ∧
      route0.total_duration_minutes = 0 :=
  ⟨by decide, gsr_eval_none, rfl, rfl, rfl⟩

/-- C2 amended.  A scenic request that passes the minimum-POI check either
returns a route object or fails; but the route object is not guaranteed a
leg: whenever every per-leg lookup fails, the returned route has an empty
feature list and all-zero totals (a silent empty success). -/
theorem scenic_all_legs_failed (sLat sLon : ℚ) (pois : List Feature)
    (oracle : WP → WP → Option Seg) (r : Route)
    (h : generate_scenic_route sLat sLon pois oracle = .route r)
    (hfail : ∀ a b, oracle a b = none) :
    r.features = [] ∧ r.total_distance = 0 ∧ r.total_duration = 0 ∧
      r.total_distance_km = 0 ∧ r.total_duration_minutes = 0 := by
  obtain ⟨sel, poiWps, _, _, hr⟩ := generate_scenic_route_eq h
  subst hr
  rw [composeLegs_all_none hfail]
  refine ⟨rfl, rfl, rfl, ?_, ?_⟩
  · show round2 ((0 : ℚ) / 1000) = 0
    rw [round2_eq_of _ 0 (by norm_num)]
    norm_num
  · show pyInt ((0 : ℚ) / 60) = 0
    rw [show ((0 : ℚ) / 60) = ((0 : ℤ) : ℚ) by norm_num, pyInt_intCast]

/-- Witness for C2 amended at the concrete all-legs-fail run. -/
theorem scenic_all_legs_failed_witness :
    route0.features = [] ∧ route0.total_distance = 0 ∧ route0.total_duration = 0 ∧
      route0.total_distance_km = 0 ∧ route0.total_duration_minutes = 0 :=
  scenic_all_legs_failed 0 0 [poiA, poiB] (fun _ _ => none) route0
    gsr_eval_none (fun _ _ => rfl)

end WalkingAssistant
